import Mathlib

/-
  Verification of the krules-framework specification against the sources.

  The embedding models:
  - Python values stored as subject properties (`PyVal`), dictionaries as
    association lists with Python dict update/delete semantics (`PDict`);
  - the in-memory property store `InMemoryTestStorage` from
    src/tests/test_subject/test_storage_helper.py, translated method by
    method (load, store, get, set, delete, get_ext_props, flush);
  - the parts of the core package that are not present under src/ (subject,
    event bus, event context, dispatcher middleware, event type constants),
    modelled from the specification, as their tests under src/ exercise them.
-/

namespace KRules

/-- A Python value as stored in a subject property.  The claims only exercise
ints, strings, bools and `None`. -/
inductive PyVal where
  | none
  | int (n : Int)
  | str (s : String)
  | bool (b : Bool)
  deriving Repr, DecidableEq

/-- A Python dict with string keys, as an association list (insertion order,
unique keys). -/
abbrev PDict := List (String × PyVal)

/-- Python `d.get(k)` / `k in d` lookup. -/
def dictGet (d : PDict) (k : String) : Option PyVal :=
  match d with
  | [] => Option.none
  | (k2, v) :: rest => if k = k2 then some v else dictGet rest k

/-- Python `d[k] = v`: overwrite in place when the key exists, else append. -/
def dictSet (d : PDict) (k : String) (v : PyVal) : PDict :=
  match d with
  | [] => [(k, v)]
  | (k2, w) :: rest => if k = k2 then (k2, v) :: rest else (k2, w) :: dictSet rest k v

/-- Python `del d[k]` (keys are unique, so removing the first match suffices). -/
def dictDel (d : PDict) (k : String) : PDict :=
  match d with
  | [] => []
  | (k2, w) :: rest => if k = k2 then rest else (k2, w) :: dictDel rest k

/-- Property kind, `PropertyType` in krules_core.subject: DEFAULT or EXTENDED
(disjoint namespaces). -/
inductive PropertyType where
  | DEFAULT
  | EXTENDED
  deriving Repr, DecidableEq

/-- The value slot of a property passed to `set`: a plain value, or a deferred
computation of zero or one argument, or a function of higher arity (which
`set` rejects).  This is the tagged-variant reading of the dynamic
`callable(value)` / `inspect.signature` dispatch in
`InMemoryTestStorage.set`. -/
inductive PropValue where
  | literal (v : PyVal)
  | callable0 (f : Unit → PyVal)
  | callable1 (f : PyVal → PyVal)
  | callableN (arity : Nat) (f : PyVal → PyVal → PyVal)

/-- A property argument to the single-property store operations
(`SubjectProperty` in krules_core.subject): name, value, kind. -/
structure SubjectProperty where
  name : String
  value : PropValue
  type : PropertyType

/-- A property argument to the batch `store` operation, with its value already
evaluated (the source stores `prop.get_value()`; the batch path is write-only
and every claim exercises it with plain literal values). -/
structure StoredProp where
  name : String
  value : PyVal
  type : PropertyType
  deriving Repr, DecidableEq

/-- Errors raised by the property store: `AttributeError(name)` for a missing
property (not-found) and `ValueError` for a callable of invalid arity. -/
inductive StoreError where
  | attributeError (name : String)
  | valueError (msg : String)
  deriving Repr, DecidableEq

/-- The per-subject slice of `InMemoryTestStorage._storage`: the two kind
dictionaries. -/
structure SubjectData where
  defaults : PDict
  extended : PDict
  deriving Repr, DecidableEq

/-- Select the dictionary of one kind, `data[prop_type]`. -/
def SubjectData.byType (d : SubjectData) (t : PropertyType) : PDict :=
  match t with
  | PropertyType.DEFAULT => d.defaults
  | PropertyType.EXTENDED => d.extended

/-- Write back the dictionary of one kind. -/
def SubjectData.withType (d : SubjectData) (t : PropertyType) (p : PDict) : SubjectData :=
  match t with
  | PropertyType.DEFAULT => { d with defaults := p }
  | PropertyType.EXTENDED => { d with extended := p }

namespace InMemoryTestStorage

/-- The state of one subject's entry in `InMemoryTestStorage._storage`:
`Option.none` when `self._subject not in self._storage`. -/
abbrev State := Option SubjectData

/-- Translation of `InMemoryTestStorage.is_concurrency_safe`. -/
def is_concurrency_safe : Bool := false

/-- Translation of `InMemoryTestStorage.is_persistent`. -/
def is_persistent : Bool := true

/-- Translation of `InMemoryTestStorage.load`: missing subject loads as two
empty dictionaries. -/
def load (st : State) : PDict × PDict :=
  match st with
  | Option.none => ([], [])
  | some d => (d.defaults, d.extended)

/-- The `if self._subject not in self._storage: ...` initialisation shared by
`store` and `set`. -/
def ensure (st : State) : SubjectData :=
  match st with
  | Option.none => { defaults := [], extended := [] }
  | some d => d

/-- Apply one insert/update of the batch: `data[prop_type][prop.name] =
prop.get_value()`. -/
def applyWrite (d : SubjectData) (p : StoredProp) : SubjectData :=
  d.withType p.type (dictSet (d.byType p.type) p.name p.value)

/-- Apply one delete of the batch: `if prop.name in data[prop_type]: del
data[prop_type][prop.name]` — a silent no-op when absent. -/
def applyDelete (d : SubjectData) (p : StoredProp) : SubjectData :=
  if (dictGet (d.byType p.type) p.name).isSome then
    d.withType p.type (dictDel (d.byType p.type) p.name)
  else d

/-- Translation of `InMemoryTestStorage.store`: initialise the subject entry,
apply inserts and updates in order, then apply deletes.  Never fails. -/
def store (st : State) (inserts updates deletes : List StoredProp) : State :=
  some (deletes.foldl applyDelete ((inserts ++ updates).foldl applyWrite (ensure st)))

/-- Translation of `InMemoryTestStorage.get`: `AttributeError` when the
subject or the property is absent. -/
def get (st : State) (p : SubjectProperty) : Except StoreError PyVal :=
  match st with
  | Option.none => Except.error (StoreError.attributeError p.name)
  | some d =>
    match dictGet (d.byType p.type) p.name with
    | Option.none => Except.error (StoreError.attributeError p.name)
    | some v => Except.ok v

/-- Translation of `InMemoryTestStorage.set`: read the old value (falling back
to `old_value_default`), resolve a callable value against it (zero args:
call it; one arg: call it on the old value; more: `ValueError`), write the
result and return `(new_value, old_value)` together with the new state.  The
error is raised before anything is written, so a failing `set` leaves the
state untouched (the caller keeps `st`). -/
def set (st : State) (p : SubjectProperty) (old_value_default : PyVal := PyVal.none) :
    Except StoreError (PyVal × PyVal × State) :=
  let d := ensure st
  let old := (dictGet (d.byType p.type) p.name).getD old_value_default
  match p.value with
  | PropValue.literal v =>
      Except.ok (v, old, some (d.withType p.type (dictSet (d.byType p.type) p.name v)))
  | PropValue.callable0 f =>
      let v := f ()
      Except.ok (v, old, some (d.withType p.type (dictSet (d.byType p.type) p.name v)))
  | PropValue.callable1 f =>
      let v := f old
      Except.ok (v, old, some (d.withType p.type (dictSet (d.byType p.type) p.name v)))
  | PropValue.callableN _ _ =>
      Except.error (StoreError.valueError "Callable must take 0 or 1 arguments")

/-- Translation of `InMemoryTestStorage.delete` (the singular form):
`AttributeError` when the subject or the property is absent, else remove. -/
def delete (st : State) (p : SubjectProperty) : Except StoreError State :=
  match st with
  | Option.none => Except.error (StoreError.attributeError p.name)
  | some d =>
    match dictGet (d.byType p.type) p.name with
    | Option.none => Except.error (StoreError.attributeError p.name)
    | some _ => Except.ok (some (d.withType p.type (dictDel (d.byType p.type) p.name)))

/-- Translation of `InMemoryTestStorage.get_ext_props`. -/
def get_ext_props (st : State) : PDict :=
  match st with
  | Option.none => []
  | some d => d.extended

/-- Translation of `InMemoryTestStorage.flush`: drop the subject entry. -/
def flush (_st : State) : State := Option.none

end InMemoryTestStorage

/-- One glob pattern token: a literal character or the `*` wildcard. -/
inductive GTok where
  | star
  | lit (c : Char)
  deriving Repr, DecidableEq

/-- Compile a pattern string into tokens: `*` becomes the wildcard, every other
character (including `.`) is literal. -/
def compileGlob (p : String) : List GTok :=
  p.data.map (fun c => if c = '*' then GTok.star else GTok.lit c)

/-- All suffixes of a character list, longest first (the full list and the
empty list included). -/
def tailsOf : List Char → List (List Char)
  | [] => [[]]
  | c :: cs => (c :: cs) :: tailsOf cs

/-- Modelled from the spec: the event bus's pattern matcher (krules_core's
event bus module is not under src/).  Glob-style matching over the event type
string where `*` matches any run of characters and every other character is
literal: a `*` absorbs an arbitrary run, so the rest of the pattern must
match some suffix of the string. -/
def globMatch : List GTok → List Char → Bool
  | [], s => s.isEmpty
  | GTok.lit _ :: _, [] => false
  | GTok.lit p :: ps, c :: cs => p = c && globMatch ps cs
  | GTok.star :: ps, s => (tailsOf s).any (fun t => globMatch ps t)

/-- Event type pattern match on strings. -/
def matchesEventType (pattern eventType : String) : Bool :=
  globMatch (compileGlob pattern) eventType.data

/-- Modelled from the spec: the event type constant
`event_types.SUBJECT_PROPERTY_CHANGED` (the event_types module is not under
src/; its tests fix the value "subject-property-changed"). -/
def SUBJECT_PROPERTY_CHANGED : String := "subject-property-changed"

/-- Modelled from the spec: `event_types.SUBJECT_PROPERTY_DELETED`, the value
"subject-property-deleted". -/
def SUBJECT_PROPERTY_DELETED : String := "subject-property-deleted"

/-- Modelled from the spec: `event_types.SUBJECT_DELETED`, the value
"subject-deleted". -/
def SUBJECT_DELETED : String := "subject-deleted"

/-- Modelled from the spec: the legacy alias `event_types.SUBJECT_FLUSHED`,
pointing at "subject-deleted". -/
def SUBJECT_FLUSHED : String := SUBJECT_DELETED

/-- Modelled from the spec: the legacy CamelCase alias
`event_types.SubjectFlushed`, equal to `SUBJECT_FLUSHED`. -/
def SubjectFlushed : String := SUBJECT_FLUSHED

/-- A registered handler of the event bus model: the pattern it was registered
under, the label it appends to the trace when invoked, and the event types it
cascades through `ctx.emit` (awaited inside the handler, after its own
work). -/
structure BusHandler where
  pattern : String
  label : String
  cascades : List String

/-- Modelled from the spec: the event bus dispatch algorithm §4.3 (the event
bus module is not under src/).  One `emit` enumerates the registered handlers
in registration order, keeps those whose pattern glob-matches the event type,
and runs each matching handler to completion — its own body, then each
cascaded `ctx.emit` as a fully awaited, independent dispatch cycle — before
the next matching handler begins.  `fuel` bounds the cascade depth; the
result is the trace of handler invocations. -/
def dispatch (bus : List BusHandler) : Nat → String → List String
  | 0, _ => []
  | fuel + 1, eventType =>
      ((bus.filter (fun h => matchesEventType h.pattern eventType)).map
        (fun h => h.label :: (h.cascades.map (dispatch bus fuel)).flatten)).flatten

/-- The full trace contributed by one matching handler: its own invocation
followed by the traces of all events it cascades, each a complete dispatch
cycle. -/
def handlerBlock (bus : List BusHandler) (fuel : Nat) (h : BusHandler) : List String :=
  h.label :: (h.cascades.map (dispatch bus fuel)).flatten

/-- The three-handler chain of test_context_emit_triggers_handlers: the
handler for "first" cascades "second", whose handler cascades "third". -/
def chainBus : List BusHandler :=
  [ { pattern := "first", label := "first", cascades := ["second"] },
    { pattern := "second", label := "second", cascades := ["third"] },
    { pattern := "third", label := "third", cascades := [] } ]

/-- Modelled from the spec: the dispatch policy constants of the dispatcher
middleware (`DispatchPolicyConst` of krules_cloudevents, not under src/):
DIRECT, BOTH, NEVER, the legacy aliases ALWAYS and DEFAULT, and an
unrecognized raw value. -/
inductive PolicyVal where
  | DIRECT
  | BOTH
  | NEVER
  | ALWAYS
  | DEFAULT
  | other (s : String)
  deriving Repr, DecidableEq

/-- The observable outcome of one run of the dispatcher middleware: whether it
performed an external dispatch, whether it invoked `next` (local handler
execution), and the dispatch-executed guard flag after the run. -/
structure MwOutcome where
  dispatched : Bool
  nextCalled : Bool
  guardAfter : Bool
  deriving Repr, DecidableEq

/-- Modelled from the spec: the dispatcher middleware §4.3 step 2 (the
krules_cloudevents middleware is not under src/).  With no dispatch target it
just runs local handlers.  Otherwise the policy decides: DIRECT dispatches
externally and skips `next`; BOTH dispatches externally and calls `next`;
NEVER skips external dispatch and calls `next`; the legacy ALWAYS behaves as
BOTH, the legacy DEFAULT and any unrecognized value behave as DIRECT.  A
guard flag (`_dispatch_executed` in the context metadata) prevents a second
run over the same context from dispatching again. -/
def dispatcherMiddleware (hasTarget : Bool) (guardBefore : Bool) (policy : PolicyVal) : MwOutcome :=
  if hasTarget = false then
    { dispatched := false, nextCalled := true, guardAfter := guardBefore }
  else
    let effective : PolicyVal :=
      match policy with
      | PolicyVal.DIRECT => PolicyVal.DIRECT
      | PolicyVal.BOTH => PolicyVal.BOTH
      | PolicyVal.NEVER => PolicyVal.NEVER
      | PolicyVal.ALWAYS => PolicyVal.BOTH
      | PolicyVal.DEFAULT => PolicyVal.DIRECT
      | PolicyVal.other _ => PolicyVal.DIRECT
    match effective with
    | PolicyVal.NEVER =>
        { dispatched := false, nextCalled := true, guardAfter := guardBefore }
    | PolicyVal.BOTH =>
        { dispatched := !guardBefore, nextCalled := true, guardAfter := true }
    | _ =>
        { dispatched := !guardBefore, nextCalled := false, guardAfter := true }

/-- A Subject handle: name, the underlying property store state, and the
optional cache snapshot (`self._cached`, absent until first access). -/
structure SubjectState where
  name : String
  storage : InMemoryTestStorage.State
  cached : Option SubjectData

/-- An event emitted on the bus by the subject mutation paths, with the data
the corresponding claims observe: per-property deletion events carry the
property name and its old value; the subject deletion event carries the
`props` and `ext_props` payload snapshots. -/
inductive EmittedEvent where
  | propertyDeleted (propName : String) (oldValue : PyVal)
  | subjectDeleted (props extProps : PDict)
  deriving Repr, DecidableEq

/-- The event type string an emitted event is dispatched under. -/
def eventTypeOf : EmittedEvent → String
  | EmittedEvent.propertyDeleted _ _ => SUBJECT_PROPERTY_DELETED
  | EmittedEvent.subjectDeleted _ _ => SUBJECT_DELETED

/-- Whether an emitted event is the subject-deleted event. -/
def isSubjectDeleted : EmittedEvent → Bool
  | EmittedEvent.propertyDeleted _ _ => false
  | EmittedEvent.subjectDeleted _ _ => true

namespace Subject

/-- Modelled from the spec: `Subject.get` §4.2 (krules_core.subject is not
under src/).  Reads the property from the loaded default-kind properties; a
missing property returns the supplied default, or raises the not-found
`AttributeError` when no default was given.  `Option.none` for the `default`
argument models the unset sentinel (no default supplied); `some PyVal.none`
models an explicitly supplied Python `None` default, which is honored
literally. -/
def get (s : SubjectState) (propName : String) (default : Option PyVal) :
    Except StoreError PyVal :=
  match dictGet (InMemoryTestStorage.load s.storage).1 propName with
  | some v => Except.ok v
  | Option.none =>
    match default with
    | some d => Except.ok d
    | Option.none => Except.error (StoreError.attributeError propName)

/-- Modelled from the spec: `Subject.flush` §4.2 (krules_core.subject is not
under src/).  For every currently-known property of both kinds it emits one
`subject-property-deleted` event carrying the property name and old value;
then it emits exactly one `subject-deleted` event whose payload snapshots the
`props` and `ext_props` mappings as they were immediately before deletion;
then it clears the underlying store and resets the cache to absent, and
returns the Subject itself (the updated handle). -/
def flush (s : SubjectState) : List EmittedEvent × SubjectState :=
  let loaded := InMemoryTestStorage.load s.storage
  let events :=
    (loaded.1.map (fun nv => EmittedEvent.propertyDeleted nv.1 nv.2)) ++
    (loaded.2.map (fun nv => EmittedEvent.propertyDeleted nv.1 nv.2)) ++
    [EmittedEvent.subjectDeleted loaded.1 loaded.2]
  (events, { s with storage := InMemoryTestStorage.flush s.storage, cached := Option.none })

end Subject

/-- Modelled from the spec: the attributes every `EventContext` exposes
regardless of event type (the EventContext class is not under src/): the
constructor fields and the bound operations. -/
def baseCtxAttrs : List String :=
  ["event_type", "subject", "payload", "metadata", "extra", "emit",
   "get_metadata", "set_metadata"]

/-- Modelled from the spec: the auto-extracted context attributes, present
only for the built-in property-changed/property-deleted event types
(`new_value` exists but is None for deletions); every other event type
auto-extracts nothing. -/
def autoExtractedAttrs (eventType : String) : List String :=
  if eventType = SUBJECT_PROPERTY_CHANGED then
    ["property_name", "old_value", "new_value"]
  else if eventType = SUBJECT_PROPERTY_DELETED then
    ["property_name", "old_value", "new_value"]
  else []

/-- The per-dispatch context as far as attribute exposure is concerned: the
event type and the payload mapping. -/
structure EventContext where
  event_type : String
  payload : PDict

/-- Python `hasattr(ctx, a)` on the modelled context: true exactly for the
base attributes and the attributes auto-extracted for the event type; custom
payload keys are reachable only through the `payload` dict. -/
def ctxHasAttr (c : EventContext) (a : String) : Bool :=
  decide (a ∈ baseCtxAttrs) || decide (a ∈ autoExtractedAttrs c.event_type)

/-- Python `lambda c: c + 1` applied to an int property value. -/
def pyIncr : PyVal → PyVal
  | PyVal.int n => PyVal.int (n + 1)
  | v => v

/-- The increment property `Property("counter", lambda c: c + 1, DEFAULT)` of
the concurrency tests. -/
def incrProp : SubjectProperty :=
  { name := "counter", value := PropValue.callable1 pyIncr, type := PropertyType.DEFAULT }

/-- The fresh store of the concurrency tests, with the counter initialised to
0 through a batch insert. -/
def counterInit : InMemoryTestStorage.State :=
  InMemoryTestStorage.store Option.none
    [{ name := "counter", value := PyVal.int 0, type := PropertyType.DEFAULT }] [] []

/-- Modelled from the spec: `is_concurrency_safe` of the modelled
concurrency-safe backends (the Redis and Postgres storage implementations are
not under src/). -/
def concBackendConcurrencySafe : Bool := true

/-- Modelled from the spec: one concurrent `set(prop, lambda c: c + 1)` call
on a concurrency-safe backend.  §4.1 mandates that the read-compute-write
sequence of `set` be atomic with respect to concurrent calls on the same
property — the backends achieve it by optimistic-lock retry or transactional
retry — so each call is one indivisible compute-and-swap step on the store
state. -/
def atomicIncrement (st : InMemoryTestStorage.State) : InMemoryTestStorage.State :=
  match InMemoryTestStorage.set st incrProp PyVal.none with
  | Except.ok (_, _, st2) => st2
  | Except.error _ => st

/-- Modelled from the spec: a concurrent execution of `n` atomic `set` calls.
Because every call is atomic, any concurrent execution is some serial
ordering of the `n` steps; the calls are identical, so all orderings produce
this state. -/
def runConcurrentIncrements : Nat → InMemoryTestStorage.State → InMemoryTestStorage.State
  | 0, st => st
  | n + 1, st => runConcurrentIncrements n (atomicIncrement st)

/-- Modelled from the spec: the Redis storage backend's singular `delete` (the
backend implementation is not under src/).  Its behavior on an absent
property is fixed by its own test suite,
src/tests/test_redis_subjects_storage/test_storage_impl.py
test_delete_non_existent_property ("Delete should not raise error for
non-existent property"), and identically by the Postgres suite: the singular
delete is a silent removal that never raises for a missing property. -/
def redisDelete (d : SubjectData) (p : SubjectProperty) : Except StoreError SubjectData :=
  Except.ok (d.withType p.type (dictDel (d.byType p.type) p.name))

/-- The previously stored value that `set(prop, old_value_default)` reports:
the value stored under `(prop.name, prop.kind)`, or `old_value_default` when
the property is absent. -/
def oldOf (st : InMemoryTestStorage.State) (propName : String) (t : PropertyType)
    (old_value_default : PyVal) : PyVal :=
  (dictGet ((InMemoryTestStorage.ensure st).byType t) propName).getD old_value_default

/-- The store state after writing `v` under `(propName, t)`. -/
def written (st : InMemoryTestStorage.State) (propName : String) (t : PropertyType)
    (v : PyVal) : InMemoryTestStorage.State :=
  some ((InMemoryTestStorage.ensure st).withType t
    (dictSet ((InMemoryTestStorage.ensure st).byType t) propName v))

/-- Every suffix list contains the empty suffix, so a trailing wildcard always
finds a match. -/
theorem tailsOf_any_isEmpty (l : List Char) :
    (tailsOf l).any (fun t => t.isEmpty) = true := by
  induction l with
  | nil => rfl
  | cons c cs ih => simp [tailsOf, List.any_cons] at ih ⊢; exact ih

/-- C2: for every property store `set(prop, old_value_default)` call on the
in-memory test storage: a non-callable value is stored as given; a
zero-argument callable is called with no arguments; a one-argument callable
is called with the previously stored value (or `old_value_default` when the
property is absent) as its single argument; in all successful cases the call
returns `(new_value, old_value)` with `old_value` the previously stored value
or `old_value_default` when absent; and a callable requiring more than one
argument fails with the invalid-arity `ValueError`.  The last two conjuncts
replay the `test_subject_set_returns_old_value` scenario: a first `set` of 10
returns old value `None`, a second `set` of 20 returns old value 10. -/
theorem C2_set_compute_and_swap :
    (∀ st propName t v d, InMemoryTestStorage.set st ⟨propName, PropValue.literal v, t⟩ d =
      Except.ok (v, oldOf st propName t d, written st propName t v)) ∧
    (∀ st propName t f d, InMemoryTestStorage.set st ⟨propName, PropValue.callable0 f, t⟩ d =
      Except.ok (f (), oldOf st propName t d, written st propName t (f ()))) ∧
    (∀ st propName t f d, InMemoryTestStorage.set st ⟨propName, PropValue.callable1 f, t⟩ d =
      Except.ok (f (oldOf st propName t d), oldOf st propName t d,
        written st propName t (f (oldOf st propName t d)))) ∧
    (∀ st propName t a f d, InMemoryTestStorage.set st ⟨propName, PropValue.callableN a f, t⟩ d =
      Except.error (StoreError.valueError "Callable must take 0 or 1 arguments")) ∧
    (InMemoryTestStorage.set Option.none
      ⟨"count", PropValue.literal (PyVal.int 10), PropertyType.DEFAULT⟩ PyVal.none =
      Except.ok (PyVal.int 10, PyVal.none,
        some { defaults := [("count", PyVal.int 10)], extended := [] })) ∧
    (InMemoryTestStorage.set (some { defaults := [("count", PyVal.int 10)], extended := [] })
      ⟨"count", PropValue.literal (PyVal.int 20), PropertyType.DEFAULT⟩ PyVal.none =
      Except.ok (PyVal.int 20, PyVal.int 10,
        some { defaults := [("count", PyVal.int 20)], extended := [] })) := by
  exact ⟨fun _ _ _ _ _ => rfl, fun _ _ _ _ _ => rfl, fun _ _ _ _ _ => rfl,
    fun _ _ _ _ _ _ => rfl, rfl, rfl⟩

/-- C4 (counterexample): the repository has a property store — the Redis
backend, whose singular `delete` behavior on an absent property is pinned by
its own test test_delete_non_existent_property — for which the singular
`delete` of a missing property succeeds as a silent no-op instead of failing
with a not-found error, so the claim's universal "the singular delete(prop)
fails with a not-found error" is false. -/
theorem C4_counterexample_redis_delete_absent_succeeds :
    redisDelete { defaults := [], extended := [] }
      ⟨"nonexistent", PropValue.literal PyVal.none, PropertyType.DEFAULT⟩ =
      Except.ok { defaults := [], extended := [] } := rfl

/-- C4 (amended): on the in-memory test storage, for every property absent
from the store, the batch operation `store(deletes=[prop])` succeeds silently
(leaving the subject's data unchanged), while the singular `delete(prop)`
fails with the not-found `AttributeError`; the external backends' singular
delete (Redis, Postgres) is instead a silent no-op when the property is
absent. -/
theorem C4_batch_delete_silent_singular_raises
    (st : InMemoryTestStorage.State) (propName : String) (t : PropertyType)
    (h : dictGet ((InMemoryTestStorage.ensure st).byType t) propName = Option.none) :
    InMemoryTestStorage.store st [] [] [{ name := propName, value := PyVal.none, type := t }] =
      some (InMemoryTestStorage.ensure st) ∧
    InMemoryTestStorage.delete st ⟨propName, PropValue.literal PyVal.none, t⟩ =
      Except.error (StoreError.attributeError propName) := by
  constructor
  · simp [InMemoryTestStorage.store, InMemoryTestStorage.applyDelete, h]
  · cases st with
    | none => rfl
    | some d =>
        simp only [InMemoryTestStorage.ensure] at h
        simp [InMemoryTestStorage.delete, h]

/-- C4 (amended, witness): the amended statement instantiated at the empty
store and the property "nonexistent". -/
theorem C4_witness :
    dictGet ((InMemoryTestStorage.ensure Option.none).byType PropertyType.DEFAULT)
      "nonexistent" = Option.none ∧
    (InMemoryTestStorage.store Option.none [] []
      [{ name := "nonexistent", value := PyVal.none, type := PropertyType.DEFAULT }] =
      some (InMemoryTestStorage.ensure Option.none) ∧
    InMemoryTestStorage.delete Option.none
      ⟨"nonexistent", PropValue.literal PyVal.none, PropertyType.DEFAULT⟩ =
      Except.error (StoreError.attributeError "nonexistent")) :=
  ⟨rfl, C4_batch_delete_silent_singular_raises Option.none "nonexistent" PropertyType.DEFAULT rfl⟩

/-- C6: event pattern matching is glob-style over the event type string: a
handler registered for "user.*" matches "user.created", "user.updated" and
"user.deleted" but not "device.created", and the bare pattern "*" matches
every event type. -/
theorem C6_glob_event_matching :
    matchesEventType "user.*" "user.created" = true ∧
    matchesEventType "user.*" "user.updated" = true ∧
    matchesEventType "user.*" "user.deleted" = true ∧
    matchesEventType "user.*" "device.created" = false ∧
    (∀ s : String, matchesEventType "*" s = true) := by
  refine ⟨by decide, by decide, by decide, by decide, fun s => ?_⟩
  show (tailsOf s.data).any (fun t => globMatch [] t) = true
  exact tailsOf_any_isEmpty s.data

/-- C5: for an emission with a dispatch target set and the guard clear, the
dispatcher middleware under policy DIRECT dispatches externally and does not
call `next`; under BOTH it dispatches externally and calls `next`; under
NEVER it does not dispatch and calls `next`; and for every guard state the
legacy ALWAYS behaves exactly as BOTH, the legacy DEFAULT exactly as DIRECT,
and every unrecognized policy value exactly as DIRECT. -/
theorem C5_dispatch_policy_semantics :
    dispatcherMiddleware true false PolicyVal.DIRECT =
      { dispatched := true, nextCalled := false, guardAfter := true } ∧
    dispatcherMiddleware true false PolicyVal.BOTH =
      { dispatched := true, nextCalled := true, guardAfter := true } ∧
    dispatcherMiddleware true false PolicyVal.NEVER =
      { dispatched := false, nextCalled := true, guardAfter := false } ∧
    (∀ g, dispatcherMiddleware true g PolicyVal.ALWAYS =
      dispatcherMiddleware true g PolicyVal.BOTH) ∧
    (∀ g, dispatcherMiddleware true g PolicyVal.DEFAULT =
      dispatcherMiddleware true g PolicyVal.DIRECT) ∧
    (∀ s g, dispatcherMiddleware true g (PolicyVal.other s) =
      dispatcherMiddleware true g PolicyVal.DIRECT) :=
  ⟨rfl, rfl, rfl, fun _ => rfl, fun _ => rfl, fun _ _ => rfl⟩

/-- C7: for one emit, the dispatch trace is the concatenation, in registration
order, of one complete block per matching handler — the handler's own
invocation followed by the full traces of every event it cascades, each an
independent, fully awaited dispatch cycle — so no handler begins before the
previous one has completed, cascades included; in particular the chain of
handlers for "first", "second", "third" observes exactly that sequence. -/
theorem C7_sequential_depth_first_dispatch :
    (∀ bus fuel eventType, dispatch bus (fuel + 1) eventType =
      ((bus.filter (fun h => matchesEventType h.pattern eventType)).map
        (handlerBlock bus fuel)).flatten) ∧
    dispatch chainBus 4 "first" = ["first", "second", "third"] := by
  exact ⟨fun _ _ _ => rfl, by decide⟩

/-- One atomic increment step bumps the stored counter by one. -/
theorem atomicIncrement_counter (k : Int) (e : PDict) :
    atomicIncrement (some { defaults := [("counter", PyVal.int k)], extended := e }) =
    some { defaults := [("counter", PyVal.int (k + 1))], extended := e } := rfl

/-- Running `m` serialized atomic increments adds `m` to the stored counter. -/
theorem runConcurrentIncrements_counter (m : Nat) : ∀ (k : Int) (e : PDict),
    runConcurrentIncrements m (some { defaults := [("counter", PyVal.int k)], extended := e }) =
    some { defaults := [("counter", PyVal.int (k + m))], extended := e } := by
  induction m with
  | zero => intro k e; simp [runConcurrentIncrements]
  | succ n ih =>
      intro k e
      show runConcurrentIncrements n
        (atomicIncrement (some { defaults := [("counter", PyVal.int k)], extended := e })) = _
      rw [atomicIncrement_counter, ih]
      have hk : k + 1 + (n : Int) = k + ((n + 1 : Nat) : Int) := by push_cast; ring
      rw [hk]

/-- C1: on a concurrency-safe backend (whose `set` §4.1 requires to be an
atomic compute-and-swap, so that a concurrent execution of identical calls is
a serial ordering of atomic steps), issuing N ≥ 1 concurrent
`set("counter", lambda c: c + 1)` calls against a fresh property starting at
0 leaves a final stored value of exactly N: no update is lost. -/
theorem C1_concurrent_increments_no_lost_updates (n : Nat) (_hn : 1 ≤ n) :
    concBackendConcurrencySafe = true ∧
    dictGet (InMemoryTestStorage.load (runConcurrentIncrements n counterInit)).1 "counter" =
      some (PyVal.int n) := by
  refine ⟨rfl, ?_⟩
  have hc : counterInit = some { defaults := [("counter", PyVal.int 0)], extended := [] } := rfl
  rw [hc, runConcurrentIncrements_counter n 0 []]
  simp [InMemoryTestStorage.load, dictGet]

/-- C1 (witness): the no-lost-updates statement at N = 50, the count used by
the Postgres concurrency test. -/
theorem C1_witness :
    1 ≤ 50 ∧ (concBackendConcurrencySafe = true ∧
      dictGet (InMemoryTestStorage.load (runConcurrentIncrements 50 counterInit)).1 "counter" =
        some (PyVal.int 50)) :=
  ⟨by norm_num, C1_concurrent_increments_no_lost_updates 50 (by norm_num)⟩

/-- C3: `flush` emits one subject-property-deleted event per currently-known
property of either kind, carrying its name and old value; emits exactly one
subject-deleted event, placed last, whose payload snapshots the `props` and
`ext_props` mappings as they were immediately before deletion; leaves the
underlying store loading as two empty mappings with the cache reset to
absent; preserves the subject identity; and for a subject with zero
properties still emits exactly the one subject-deleted event with two empty
snapshot maps. -/
theorem C3_flush_snapshot_and_reset (s : SubjectState) :
    (Subject.flush s).1 =
      ((InMemoryTestStorage.load s.storage).1.map
        (fun nv => EmittedEvent.propertyDeleted nv.1 nv.2)) ++
      ((InMemoryTestStorage.load s.storage).2.map
        (fun nv => EmittedEvent.propertyDeleted nv.1 nv.2)) ++
      [EmittedEvent.subjectDeleted (InMemoryTestStorage.load s.storage).1
        (InMemoryTestStorage.load s.storage).2] ∧
    (∀ nm v, (nm, v) ∈ (InMemoryTestStorage.load s.storage).1 ++
        (InMemoryTestStorage.load s.storage).2 →
      EmittedEvent.propertyDeleted nm v ∈ (Subject.flush s).1) ∧
    (Subject.flush s).1.countP isSubjectDeleted = 1 ∧
    InMemoryTestStorage.load (Subject.flush s).2.storage = ([], []) ∧
    (Subject.flush s).2.cached = Option.none ∧
    (Subject.flush s).2.name = s.name ∧
    (InMemoryTestStorage.load s.storage = ([], []) →
      (Subject.flush s).1 = [EmittedEvent.subjectDeleted [] []]) := by
  refine ⟨rfl, ?_, ?_, rfl, rfl, rfl, ?_⟩
  · intro nm v hmem
    show EmittedEvent.propertyDeleted nm v ∈
      ((InMemoryTestStorage.load s.storage).1.map
        (fun nv => EmittedEvent.propertyDeleted nv.1 nv.2)) ++
      ((InMemoryTestStorage.load s.storage).2.map
        (fun nv => EmittedEvent.propertyDeleted nv.1 nv.2)) ++
      [EmittedEvent.subjectDeleted (InMemoryTestStorage.load s.storage).1
        (InMemoryTestStorage.load s.storage).2]
    rcases List.mem_append.mp hmem with h1 | h1
    · exact List.mem_append_left _ (List.mem_append_left _ (List.mem_map_of_mem _ h1))
    · exact List.mem_append_left _ (List.mem_append_right _ (List.mem_map_of_mem _ h1))
  · show List.countP isSubjectDeleted
      (((InMemoryTestStorage.load s.storage).1.map
        (fun nv => EmittedEvent.propertyDeleted nv.1 nv.2)) ++
      ((InMemoryTestStorage.load s.storage).2.map
        (fun nv => EmittedEvent.propertyDeleted nv.1 nv.2)) ++
      [EmittedEvent.subjectDeleted (InMemoryTestStorage.load s.storage).1
        (InMemoryTestStorage.load s.storage).2]) = 1
    have hz : ∀ l : PDict,
        List.countP (isSubjectDeleted ∘ fun nv => EmittedEvent.propertyDeleted nv.1 nv.2) l = 0 :=
      fun l => List.countP_eq_zero.mpr (fun a _ => by simp [Function.comp, isSubjectDeleted])
    simp [List.countP_append, List.countP_map, hz, isSubjectDeleted,
      List.countP_cons, List.countP_nil]
  · intro h
    simp [Subject.flush, h]

/-- C8: on a subject missing a property, `get` with no default raises the
not-found `AttributeError`, while `get` with any supplied default returns
that default — in particular an explicitly supplied default of None is
returned literally rather than treated as absent. -/
theorem C8_get_default_handling (s : SubjectState) (propName : String) (dv : PyVal)
    (h : dictGet (InMemoryTestStorage.load s.storage).1 propName = Option.none) :
    Subject.get s propName Option.none = Except.error (StoreError.attributeError propName) ∧
    Subject.get s propName (some dv) = Except.ok dv ∧
    Subject.get s propName (some PyVal.none) = Except.ok PyVal.none := by
  refine ⟨?_, ?_, ?_⟩ <;> simp [Subject.get, h]

/-- C8 (witness): the default-handling statement at a fresh subject and the
property "missing", with the string default of the source test. -/
theorem C8_witness :
    dictGet (InMemoryTestStorage.load (SubjectState.mk "test" Option.none Option.none).storage).1
      "missing" = Option.none ∧
    (Subject.get (SubjectState.mk "test" Option.none Option.none) "missing" Option.none =
      Except.error (StoreError.attributeError "missing") ∧
    Subject.get (SubjectState.mk "test" Option.none Option.none) "missing"
      (some (PyVal.str "default-value")) = Except.ok (PyVal.str "default-value") ∧
    Subject.get (SubjectState.mk "test" Option.none Option.none) "missing"
      (some PyVal.none) = Except.ok PyVal.none) :=
  ⟨rfl, C8_get_default_handling (SubjectState.mk "test" Option.none Option.none) "missing"
    (PyVal.str "default-value") rfl⟩

/-- C9: a custom payload key — one outside the base context attributes and the
built-in auto-extracted property-changed/property-deleted fields — is never
exposed as a context attribute for any event type, and stays reachable
through the payload dict. -/
theorem C9_payload_keys_not_attributes (eventType k : String) (payload : PDict) (v : PyVal)
    (h1 : k ∉ baseCtxAttrs)
    (h2 : k ∉ ["property_name", "old_value", "new_value"])
    (h3 : dictGet payload k = some v) :
    ctxHasAttr { event_type := eventType, payload := payload } k = false ∧
    dictGet (EventContext.mk eventType payload).payload k = some v := by
  refine ⟨?_, h3⟩
  have hauto : k ∉ autoExtractedAttrs eventType := by
    unfold autoExtractedAttrs
    split
    · exact h2
    · split
      · exact h2
      · simp
  simp [ctxHasAttr, h1, hauto]

/-- C9 (witness): the payload key "ip" of the source test, on an event of type
"test.event". -/
theorem C9_witness :
    "ip" ∉ baseCtxAttrs ∧
    "ip" ∉ ["property_name", "old_value", "new_value"] ∧
    dictGet [("ip", PyVal.str "1.2.3.4"), ("user_agent", PyVal.str "Mozilla/5.0")] "ip" =
      some (PyVal.str "1.2.3.4") ∧
    (ctxHasAttr (EventContext.mk "test.event"
        [("ip", PyVal.str "1.2.3.4"), ("user_agent", PyVal.str "Mozilla/5.0")])
      "ip" = false ∧
    dictGet (EventContext.mk "test.event"
        [("ip", PyVal.str "1.2.3.4"), ("user_agent", PyVal.str "Mozilla/5.0")]).payload "ip" =
      some (PyVal.str "1.2.3.4")) :=
  ⟨by decide, by decide, rfl,
    C9_payload_keys_not_attributes "test.event" "ip"
      [("ip", PyVal.str "1.2.3.4"), ("user_agent", PyVal.str "Mozilla/5.0")]
      (PyVal.str "1.2.3.4") (by decide) (by decide) rfl⟩

/-- C10: the legacy constant SUBJECT_FLUSHED equals the string
"subject-deleted" and the alias SubjectFlushed equals SUBJECT_FLUSHED, so
among the events `flush` emits, a handler pattern equal to SUBJECT_FLUSHED
matches an event exactly when that event is the subject-deleted event. -/
theorem C10_legacy_flushed_alias (s : SubjectState) (ev : EmittedEvent)
    (h : ev ∈ (Subject.flush s).1) :
    SUBJECT_FLUSHED = "subject-deleted" ∧
    SubjectFlushed = SUBJECT_FLUSHED ∧
    (matchesEventType SUBJECT_FLUSHED (eventTypeOf ev) = true ↔ isSubjectDeleted ev = true) := by
  refine ⟨rfl, rfl, ?_⟩
  cases ev with
  | propertyDeleted nm v =>
      simp only [eventTypeOf, isSubjectDeleted]
      decide
  | subjectDeleted p e =>
      simp only [eventTypeOf, isSubjectDeleted]
      decide

/-- C10 (witness): the alias statement at the subject-deleted event emitted by
flushing an empty subject. -/
theorem C10_witness :
    EmittedEvent.subjectDeleted [] [] ∈
      (Subject.flush (SubjectState.mk "empty-subject" Option.none Option.none)).1 ∧
    (SUBJECT_FLUSHED = "subject-deleted" ∧
    SubjectFlushed = SUBJECT_FLUSHED ∧
    (matchesEventType SUBJECT_FLUSHED (eventTypeOf (EmittedEvent.subjectDeleted [] [])) = true ↔
      isSubjectDeleted (EmittedEvent.subjectDeleted [] []) = true)) :=
  ⟨by decide, C10_legacy_flushed_alias (SubjectState.mk "empty-subject" Option.none Option.none)
    (EmittedEvent.subjectDeleted [] []) (by decide)⟩

end KRules
